import Mathlib

/-!
Shallow embedding of the metadata cache and relationship-inference engine of
the clickhouse-schemaflow-visualizer repository (package `models`, final
variant of `clickhouse.go`).  Go maps are modelled as association lists with
overwrite-on-insert, Go `*uint64` fields as `Option Nat`, the row stream
returned by the bulk metadata query as an explicit list of scan outcomes, and
wall-clock times as natural numbers of nanoseconds.  Presentation-only helpers
that format floating-point numbers (`formatRows`, `formatBytes`) and the
external 32-bit string hash (`city.Hash32` from the go-faster/city library)
are threaded through as parameters of a `RenderEnv`: no claim depends on their
output values, only on the structure of the strings they are embedded in.
-/

namespace SchemaFlow

/-- Association-list insert with overwrite, modelling Go map assignment
`m[k] = v`: an existing binding for `k` is replaced in place, a new key is
appended. -/
def insertA {α : Type} (k : String) (v : α) : List (String × α) → List (String × α)
  | [] => [(k, v)]
  | (k₁, v₁) :: rest => if k₁ = k then (k, v) :: rest else (k₁, v₁) :: insertA k v rest

/-- Association-list lookup, modelling Go map read `m[k]`. -/
def lookupA {α : Type} (k : String) : List (String × α) → Option α
  | [] => none
  | (k₁, v₁) :: rest => if k₁ = k then some v₁ else lookupA k rest

/-- Keys of an association list. -/
def keysA {α : Type} (m : List (String × α)) : List String := m.map Prod.fst

/-- Auxiliary splitter over character lists implementing the leftmost,
non-overlapping split semantics of Go `strings.Split` for a nonempty
separator.  `fuel` bounds the recursion; every call with `fuel ≥ rest.length`
(as made by `splitGo`) never reaches the fuel-exhaustion case, because each
step consumes at least one character of `rest`. -/
def splitGoAux (sep : List Char) : Nat → List Char → List Char → List (List Char)
  | _, acc, [] => [acc.reverse]
  | 0, acc, rest => [acc.reverse ++ rest]
  | fuel + 1, acc, c :: cs =>
    if sep.isPrefixOf (c :: cs) then
      acc.reverse :: splitGoAux sep fuel [] (List.drop (sep.length - 1) cs)
    else
      splitGoAux sep fuel (c :: acc) cs

/-- Go `strings.Split s sep` for the nonempty separators used by the source
(single quote, single space, `"FROM "`).  Defined over the character data so
that it evaluates inside the kernel. -/
def splitGo (s sep : String) : List String :=
  (splitGoAux sep.toList s.toList.length [] s.toList).map String.mk

/-- Go `strings.HasPrefix`. -/
def hasPrefixGo (s p : String) : Bool :=
  p.toList.isPrefixOf s.toList

/-- Go `strings.ToLower`, restricted to ASCII letters: sufficient for the
denylist comparison against the ASCII constant `"information_schema"`. -/
def toLowerGo (s : String) : String :=
  String.mk (s.toList.map Char.toLower)

/-- `TableRelation` (clickhouse.go line 315): one inferred directed dependency
edge `DependsOnTable → Table`; a relation with empty `DependsOnTable` is a bare
node entry, not an edge. -/
structure TableRelation where
  dependsOnTable : String := ""
  table : String := ""
  icon : String := ""
  deriving Repr, DecidableEq

/-- `CachedTableData` (clickhouse.go line 364): one table snapshot captured by
a cache refresh.  `totalRows`/`totalBytes` model Go `*uint64` (`none` = nil). -/
structure CachedTableData where
  name : String
  database : String
  engine : String
  engineFullMeta : String
  createQuery : String
  totalRows : Option Nat
  totalBytes : Option Nat
  loadingDependenciesDatabase : List String
  loadingDependenciesTable : List String
  icon : String
  lastUpdated : Nat
  deriving Repr, DecidableEq

/-- `TableCache` (clickhouse.go line 379): tables keyed by `database.table`,
the flat relations list, the database → (table → label) index, and the
last-refresh timestamp (ns). -/
structure TableCache where
  tables : List (String × CachedTableData) := []
  relations : List TableRelation := []
  databasesMap : List (String × List (String × String)) := []
  lastRefresh : Nat := 0
  deriving Repr, DecidableEq

/-- One row scanned from the bulk `system.tables` query
(clickhouse.go lines 968-976). -/
structure SrcRow where
  database : String
  name : String
  engine : String
  engineFull : String
  createQuery : String
  totalRows : Option Nat
  totalBytes : Option Nat
  loadingDepsDB : List String
  loadingDepsTable : List String
  deriving Repr, DecidableEq

instance {α β : Type} [DecidableEq α] [DecidableEq β] : DecidableEq (Except α β) := fun x y =>
  match x, y with
  | .error a, .error b =>
    if h : a = b then .isTrue (by rw [h]) else .isFalse (fun hh => h (by injection hh))
  | .error _, .ok _ => .isFalse (fun hh => by injection hh)
  | .ok _, .error _ => .isFalse (fun hh => by injection hh)
  | .ok a, .ok b =>
    if h : a = b then .isTrue (by rw [h]) else .isFalse (fun hh => h (by injection hh))

/-- Outcome of issuing the bulk metadata query: the query itself can fail
(`queryError`), or it returns a stream of rows each of which either scans
into a `SrcRow` or fails to scan (`Except.error`), followed by the final
`rows.Err()` value (`iterErr`). -/
inductive FetchResult where
  | queryError (msg : String)
  | rows (items : List (Except String SrcRow)) (iterErr : Option String)
  deriving Repr, DecidableEq

/-- `5*time.Minute` in nanoseconds (clickhouse.go line 933). -/
def fiveMinutes : Nat := 5 * 60 * 1000000000

/-- `allowedDatabase` (clickhouse.go lines 1252-1267): the fixed denylist of
system databases.  Note only `information_schema` is compared
case-insensitively (via `strings.ToLower`). -/
def allowedDatabase (database : String) : Bool :=
  if database = "" then false
  else if database = "system" then false
  else if toLowerGo database = "information_schema" then false
  else if database = "performance_schema" then false
  else if database = "mysql" then false
  else true

/-- `getEngineIcon` (clickhouse.go lines 1022-1037). -/
def getEngineIcon (engine : String) : String :=
  if engine = "MergeTree" then "<i class=\"fa-solid fa-database\"></i>"
  else if hasPrefixGo engine "Replicated" then "<i class=\"fa-solid fa-circle-nodes\"></i>"
  else if hasPrefixGo engine "Dictionary" then "<i class=\"fa-solid fa-book\"></i>"
  else if engine = "Distributed" then "<i class=\"fa-solid fa-diagram-project\"></i>"
  else if engine = "MaterializedView" then "<i class=\"fa-solid fa-eye\"></i>"
  else "<i class=\"fa-solid fa-table\"></i>"

/-- `extractRelationsFromQuery` (clickhouse.go lines 1040-1101): the pure
relationship extractor.  `"\x27"` is the single-quote character used by the
`Distributed` rule to split the engine parameter string. -/
def extractRelationsFromQuery (database table engine engineFull createQuery : String)
    (loadingDepsDB loadingDepsTable : List String) : List TableRelation :=
  let fullTableName := database ++ "." ++ table
  let icon := getEngineIcon engine
  if engine = "MergeTree" then
    [{ table := fullTableName, icon := icon }]
  else if engine = "Distributed" then
    let parts := splitGo engineFull "\x27"
    if parts.length ≥ 6 then
      let targetDB := parts.getD 3 ""
      let targetTable := parts.getD 5 ""
      [{ dependsOnTable := fullTableName, table := targetDB ++ "." ++ targetTable, icon := icon }]
    else
      [{ table := fullTableName, icon := icon }]
  else if engine = "MaterializedView" then
    let queryParts1 := splitGo createQuery " "
    let queryParts2 := splitGo createQuery "FROM "
    if queryParts1.length > 5 ∧ queryParts2.length > 1 then
      let mvTable := queryParts1.getD 3 ""
      let targetTable := queryParts1.getD 5 ""
      let queryParts3 := splitGo (queryParts2.getD 1 "") " "
      let sourceTable := queryParts3.getD 0 ""
      [{ dependsOnTable := sourceTable, table := mvTable, icon := icon },
       { dependsOnTable := mvTable, table := targetTable, icon := icon }]
    else
      []
  else
    if loadingDepsDB.length > 0 ∧ loadingDepsTable.length > 0 then
      let depTable := loadingDepsDB.headD "" ++ "." ++ loadingDepsTable.headD ""
      [{ dependsOnTable := depTable, table := fullTableName, icon := icon }]
    else
      [{ table := fullTableName, icon := icon }]

/-- Presentation and external-library parameters of the embedding.
`hash32` stands for the external `city.Hash32` (go-faster/city) used only to
mint node identifiers inside rendered strings; `fmtRows`/`fmtBytes` stand for
`formatRows`/`formatBytes` (clickhouse.go lines 882-913), which format with
`float64` arithmetic and are pure presentation (spec treats rendering as an
opaque format).  No theorem below depends on the values these produce. -/
structure RenderEnv where
  hash32 : String → Nat
  fmtRows : Option Nat → String
  fmtBytes : Option Nat → String

/-- `generateTableListContent` (clickhouse.go lines 916-925): the sidebar
label for one table. -/
def generateTableListContent (env : RenderEnv) (icon tableName : String)
    (totalRows totalBytes : Option Nat) : String :=
  match totalRows with
  | none => icon ++ " " ++ tableName
  | some _ =>
    icon ++ " " ++ tableName ++ "<br><small style=\"color: #000; font-size: 0.8em;\">Rows: <b>"
      ++ env.fmtRows totalRows ++ "</b> | Size: <b>" ++ env.fmtBytes totalBytes ++ "</b></small>"

/-- Nested map update `DatabasesMap[database][name] = label`
(clickhouse.go lines 1002-1005): the inner map is created when absent. -/
def dbMapInsert (database name label : String)
    (m : List (String × List (String × String))) : List (String × List (String × String)) :=
  match lookupA database m with
  | none => m ++ [(database, [(name, label)])]
  | some inner => insertA database (insertA name label inner) m

/-- The body of one iteration of the row loop of `refreshTableCache`
(clickhouse.go lines 978-1009), applied to an already-scanned row. -/
def refreshRowStep (env : RenderEnv) (now : Nat) (st : TableCache) (row : SrcRow) : TableCache :=
  if !allowedDatabase row.database then st
  else
    let fullTableName := row.database ++ "." ++ row.name
    let icon := getEngineIcon row.engine
    let data : CachedTableData :=
      { name := row.name
        database := row.database
        engine := row.engine
        engineFullMeta := row.engineFull
        createQuery := row.createQuery
        totalRows := row.totalRows
        totalBytes := row.totalBytes
        loadingDependenciesDatabase := row.loadingDepsDB
        loadingDependenciesTable := row.loadingDepsTable
        icon := icon
        lastUpdated := now }
    { st with
      tables := insertA fullTableName data st.tables
      databasesMap := dbMapInsert row.database row.name
        (generateTableListContent env icon row.name row.totalRows row.totalBytes) st.databasesMap
      relations := st.relations ++ extractRelationsFromQuery row.database row.name row.engine
        row.engineFull row.createQuery row.loadingDepsDB row.loadingDepsTable }

/-- The `rows.Next()/rows.Scan` loop of `refreshTableCache`
(clickhouse.go lines 968-1018): scans rows one at a time, returns on the
first scan failure, checks `rows.Err()` after the loop, and stamps
`LastRefresh` only on full success. -/
def refreshLoop (env : RenderEnv) (now : Nat) :
    List (Except String SrcRow) → Option String → TableCache → TableCache × Option String
  | [], iterErr, st =>
    match iterErr with
    | some e => (st, some ("error iterating table rows: " ++ e))
    | none => ({ st with lastRefresh := now }, none)
  | .error e :: _, _, st => (st, some ("failed to scan table data: " ++ e))
  | .ok row :: rest, iterErr, st => refreshLoop env now rest iterErr (refreshRowStep env now st row)

/-- Result of one call to `refreshTableCache`: the cache state it leaves
behind, the returned error, and the number of bulk queries it issued. -/
structure RefreshResult where
  state : TableCache
  error : Option String
  queries : Nat
  deriving Repr, DecidableEq

/-- `refreshTableCache` (clickhouse.go lines 928-1019).  The freshness check
(line 933) short-circuits with no I/O; otherwise one bulk query is issued
(modelled by consuming `fetch`), the three cache structures are cleared
(lines 964-966), and the row loop rebuilds them in place. -/
def refreshTableCache (env : RenderEnv) (st : TableCache) (now : Nat)
    (fetch : FetchResult) : RefreshResult :=
  if now - st.lastRefresh < fiveMinutes ∧ st.tables.length > 0 then
    { state := st, error := none, queries := 0 }
  else
    match fetch with
    | .queryError e =>
      { state := st, error := some ("failed to query system.tables: " ++ e), queries := 1 }
    | .rows items iterErr =>
      let res := refreshLoop env now items iterErr
        { st with tables := [], relations := [], databasesMap := [] }
      { state := res.1, error := res.2, queries := 1 }

/-- `getTableFromCache` (clickhouse.go lines 1104-1119): refresh, then look
the qualified name up in the table map; absence is an error. -/
def getTableFromCache (env : RenderEnv) (st : TableCache) (now : Nat) (fetch : FetchResult)
    (database table : String) : TableCache × Except String CachedTableData :=
  let r := refreshTableCache env st now fetch
  match r.error with
  | some e => (r.state, .error e)
  | none =>
    match lookupA (database ++ "." ++ table) r.state.tables with
    | some tableData => (r.state, .ok tableData)
    | none => (r.state, .error ("table " ++ database ++ "." ++ table ++ " not found"))

/-- `generateTableNodeContent` (clickhouse.go lines 1357-1370): node display
text, embedding row/byte metadata when the cached row count is present. -/
def generateTableNodeContent (env : RenderEnv) (tables : List (String × CachedTableData))
    (table : String) : String :=
  match lookupA table tables with
  | some tableData =>
    match tableData.totalRows with
    | some _ =>
      table ++ "<br><small>Rows: <b>" ++ env.fmtRows tableData.totalRows
        ++ "</b> Size: <b>" ++ env.fmtBytes tableData.totalBytes ++ "</b></small>"
    | none => table
  | none => table

/-- The rendered edge line `    %d["%s"] --> %d["%s"]\n` built by
`getRelationsNext`/`getRelationsBack` (clickhouse.go lines 1378-1382 and
1399-1403). -/
def mermaidRow (env : RenderEnv) (tables : List (String × CachedTableData))
    (dep tbl : String) : String :=
  "    " ++ toString (env.hash32 dep) ++ "[\"" ++ generateTableNodeContent env tables dep
    ++ "\"] --> " ++ toString (env.hash32 tbl) ++ "[\"" ++ generateTableNodeContent env tables tbl
    ++ "\"]\n"

/-- One pass of the `for _, rel := range tablesRelations` loop of
`getRelationsNext` (clickhouse.go lines 1373-1390), parameterised by the
recursive call made after each matching relation.  The visited set `seen`
guards only the emission of the rendered line (lines 1384-1387); the
recursive call on `rel.Table` (line 1388) is unconditional. -/
def relationsLoopNext (env : RenderEnv) (tables : List (String × CachedTableData))
    (recurse : String → List String → Option (List String × String)) :
    List TableRelation → String → List String → Option (List String × String)
  | [], _, seen => some (seen, "")
  | rel :: rest, table, seen =>
    if rel.dependsOnTable = table ∧ table ≠ "" then
      let row := mermaidRow env tables rel.dependsOnTable rel.table
      let isNew := !seen.contains row
      let seen₁ := if isNew then row :: seen else seen
      let out₁ := if isNew then row else ""
      match recurse rel.table seen₁ with
      | none => none
      | some (seen₂, out₂) =>
        match relationsLoopNext env tables recurse rest table seen₂ with
        | none => none
        | some (seen₃, out₃) => some (seen₃, out₁ ++ out₂ ++ out₃)
    else
      relationsLoopNext env tables recurse rest table seen

/-- Same for `getRelationsBack` (clickhouse.go lines 1394-1411): matches on
`rel.Table == table && rel.DependsOnTable != ""` and recurses on
`rel.DependsOnTable` (line 1409), again unconditionally. -/
def relationsLoopBack (env : RenderEnv) (tables : List (String × CachedTableData))
    (recurse : String → List String → Option (List String × String)) :
    List TableRelation → String → List String → Option (List String × String)
  | [], _, seen => some (seen, "")
  | rel :: rest, table, seen =>
    if rel.table = table ∧ rel.dependsOnTable ≠ "" then
      let row := mermaidRow env tables rel.dependsOnTable rel.table
      let isNew := !seen.contains row
      let seen₁ := if isNew then row :: seen else seen
      let out₁ := if isNew then row else ""
      match recurse rel.dependsOnTable seen₁ with
      | none => none
      | some (seen₂, out₂) =>
        match relationsLoopBack env tables recurse rest table seen₂ with
        | none => none
        | some (seen₃, out₃) => some (seen₃, out₁ ++ out₂ ++ out₃)
    else
      relationsLoopBack env tables recurse rest table seen

/-- Fuel-indexed approximation of the recursive `getRelationsNext`
(clickhouse.go lines 1372-1391): `fuel` bounds the recursion depth and one
unit is consumed per call, so the source recursion reaches a result `v` on
some input iff this returns `some v` for some fuel; returning `none` for
every fuel means the source recursion never terminates on that input. -/
def getRelationsNextF (env : RenderEnv) (tables : List (String × CachedTableData))
    (rels : List TableRelation) : Nat → String → List String → Option (List String × String)
  | 0, _, _ => none
  | fuel + 1, table, seen =>
    relationsLoopNext env tables
      (fun t s => getRelationsNextF env tables rels fuel t s) rels table seen

/-- Fuel-indexed approximation of `getRelationsBack`
(clickhouse.go lines 1393-1412). -/
def getRelationsBackF (env : RenderEnv) (tables : List (String × CachedTableData))
    (rels : List TableRelation) : Nat → String → List String → Option (List String × String)
  | 0, _, _ => none
  | fuel + 1, table, seen =>
    relationsLoopBack env tables
      (fun t s => getRelationsBackF env tables rels fuel t s) rels table seen

/-- `true` on `Except.ok`. -/
def exceptIsOk {α β : Type} : Except α β → Bool
  | .ok _ => true
  | .error _ => false

/-- `GenerateMermaidSchema` (clickhouse.go lines 1330-1355), fuel-indexed
through the two traversals: refresh, render the root node and its style
line, then run the forward and backward traversals over one shared visited
set.  `none` means the traversal exhausted the given recursion depth. -/
def GenerateMermaidSchemaF (env : RenderEnv) (fuel : Nat) (st : TableCache) (now : Nat)
    (fetch : FetchResult) (dbName tableName : String) :
    Option (TableCache × Except String String) :=
  let r := refreshTableCache env st now fetch
  match r.error with
  | some e => some (r.state, .error ("failed to refresh table cache: " ++ e))
  | none =>
    let table := dbName ++ "." ++ tableName
    let nodeContent := generateTableNodeContent env r.state.tables table
    let header := "flowchart TB\n" ++ "    " ++ toString (env.hash32 table) ++ "[\""
      ++ nodeContent ++ "\"]\n\n" ++ "    style " ++ toString (env.hash32 table)
      ++ " fill:#FF6D00,stroke:#AA00FF,color:#FFFFFF\n\n"
    match getRelationsNextF env r.state.tables r.state.relations fuel table [] with
    | none => none
    | some (seen₁, out₁) =>
      match getRelationsBackF env r.state.tables r.state.relations fuel table seen₁ with
      | none => none
      | some (_, out₂) => some (r.state, .ok (header ++ out₁ ++ out₂))

/-- `GenerateDatabaseMermaidSchema` (clickhouse.go lines 1415-1432) up to and
including its database-existence gate: `GetDatabases` (refresh + return the
database index, lines 1270-1279) wrapped at line 1419, then the `exists`
check at lines 1423-1426.  The remaining body only renders markup in the
`.ok` case and is not needed by any claim; every error this model produces
is exactly what the source returns before reaching that body. -/
def GenerateDatabaseMermaidSchemaCheck (env : RenderEnv) (st : TableCache) (now : Nat)
    (fetch : FetchResult) (dbName : String) : TableCache × Except String Unit :=
  let r := refreshTableCache env st now fetch
  match r.error with
  | some e =>
    (r.state, .error ("failed to get databases: failed to refresh table cache: " ++ e))
  | none =>
    match lookupA dbName r.state.databasesMap with
    | none => (r.state, .error ("database \x27" ++ dbName ++ "\x27 not found"))
    | some _ => (r.state, .ok ())

/-- `2^64`, the modulus of Go `uint64` arithmetic. -/
def U64 : Nat := 2 ^ 64

/-- Go `uint64` addition (wrapping). -/
def addU64 (a b : Nat) : Nat := (a + b) % U64

/-- `EngineStats` (clickhouse.go line 357). -/
structure EngineStats where
  count : Nat := 0
  totalRows : Nat := 0
  totalBytes : Nat := 0
  deriving Repr, DecidableEq

/-- `DatabaseStats` (clickhouse.go line 348). -/
structure DatabaseStats where
  database : String
  totalTables : Nat := 0
  totalRows : Nat := 0
  totalBytes : Nat := 0
  engineCounts : List (String × EngineStats) := []
  deriving Repr, DecidableEq

/-- One iteration of the aggregation loop of `GetDatabaseStats`
(clickhouse.go lines 1299-1324): skip tables of other databases, count the
table, add present row/byte values (`uint64` addition), and update the
per-engine breakdown, which counts the table even when rows/bytes are
absent. -/
def statsStep (dbName : String) (s : DatabaseStats) (tableData : CachedTableData) :
    DatabaseStats :=
  if tableData.database ≠ dbName then s
  else
    let s₁ :=
      { s with
        totalTables := s.totalTables + 1
        totalRows := addU64 s.totalRows (tableData.totalRows.getD 0)
        totalBytes := addU64 s.totalBytes (tableData.totalBytes.getD 0) }
    let es := (lookupA tableData.engine s.engineCounts).getD {}
    let es₁ : EngineStats :=
      { count := es.count + 1
        totalRows := addU64 es.totalRows (tableData.totalRows.getD 0)
        totalBytes := addU64 es.totalBytes (tableData.totalBytes.getD 0) }
    { s₁ with engineCounts := insertA tableData.engine es₁ s₁.engineCounts }

/-- `GetDatabaseStats` (clickhouse.go lines 1282-1327), restricted to its
aggregation over an already-fresh generation: a single linear scan over the
cached table map.  (The preceding `refreshTableCache` call only refreshes
the generation scanned; it is covered by `refreshTableCache` above.) -/
def GetDatabaseStats (tables : List (String × CachedTableData)) (dbName : String) :
    DatabaseStats :=
  tables.foldl (fun s p => statsStep dbName s p.2)
    { database := dbName, totalTables := 0, totalRows := 0, totalBytes := 0, engineCounts := [] }

/-- Go `strconv.ParseUint(field, 10, 64)`: digits only, no sign, value below
`2^64`; any violation is an error (`none`). -/
def parseUint64Go (s : String) : Option Nat :=
  let cs := s.toList
  if cs ≠ [] ∧ cs.all Char.isDigit then
    let v := cs.foldl (fun a c => a * 10 + (c.toNat - 48)) 0
    if v < U64 then some v else none
  else none

/-- The `**uint64` (nullable unsigned integer) branch shared verbatim by
`HTTPRows.Scan` (clickhouse.go lines 453-461) and `HTTPRow.Scan`
(lines 546-554): the destination is set to nil exactly on the sentinel
`"\N"`, the empty string, or the literal `"0"`; otherwise a successful parse
stores the value and a failed parse leaves the destination (`dest`)
untouched. -/
def scanNullableUInt64 (field : String) (dest : Option Nat) : Option Nat :=
  if field = "\\N" ∨ field = "" ∨ field = "0" then none
  else
    match parseUint64Go field with
    | some v => some v
    | none => dest

/-- The sub-list of relations that are actual edges: a relation renders as an
edge only when its source endpoint `dependsOnTable` is non-empty (the
traversal conditions at clickhouse.go lines 1374 and 1395). -/
def edgesOf (rels : List TableRelation) : List TableRelation :=
  rels.filter (fun r => r.dependsOnTable ≠ "")

/-- The relations contributed by one scanned row
(clickhouse.go line 1008). -/
def rowRelations (row : SrcRow) : List TableRelation :=
  extractRelationsFromQuery row.database row.name row.engine row.engineFull row.createQuery
    row.loadingDepsDB row.loadingDepsTable

/-- The successfully scanned rows of a stream that pass the database
denylist (clickhouse.go lines 978-981). -/
def allowedScannedRows (items : List (Except String SrcRow)) : List SrcRow :=
  items.filterMap fun it =>
    match it with
    | .ok row => if allowedDatabase row.database then some row else none
    | .error _ => none

/-- Concrete `RenderEnv` used by closed evaluations: a constant hash and
empty formatted fragments.  No claim depends on these values; the spec only
requires the hash to be a deterministic bucketing function. -/
def specEnv : RenderEnv :=
  { hash32 := fun _ => 0, fmtRows := fun _ => "", fmtBytes := fun _ => "" }

/-- A concrete table snapshot for closed evaluations. -/
def sampleData (db nm engine : String) (rows : Option Nat) : CachedTableData :=
  { name := nm, database := db, engine := engine, engineFullMeta := "", createQuery := ""
    totalRows := rows, totalBytes := none, loadingDependenciesDatabase := []
    loadingDependenciesTable := [], icon := "", lastUpdated := 0 }

/-- The 3-node cyclic edge list A→B→C→A of the termination test, with
qualified names `db.a`, `db.b`, `db.c`. -/
def threeCycle : List TableRelation :=
  [{ dependsOnTable := "db.a", table := "db.b", icon := "" },
   { dependsOnTable := "db.b", table := "db.c", icon := "" },
   { dependsOnTable := "db.c", table := "db.a", icon := "" }]

/-- A warm cache generation whose relations list is the 3-cycle, fresh at
time 150 (lastRefresh 100). -/
def stCycle : TableCache :=
  { tables := [("db.a", sampleData "db" "a" "MergeTree" none)]
    relations := threeCycle
    databasesMap := [("db", [("a", "a")])]
    lastRefresh := 100 }

/-- A warm cache generation holding one table `db.t` and one bare-node
relation, with lastRefresh 0. -/
def stWarm : TableCache :=
  { tables := [("db.t", sampleData "db" "t" "MergeTree" (some 5))]
    relations := [{ dependsOnTable := "", table := "db.t", icon := "" }]
    databasesMap := [("db", [("t", "t")])]
    lastRefresh := 0 }

/-- A well-formed scanned row in an allowed database. -/
def row1 : SrcRow :=
  { database := "db", name := "t", engine := "MergeTree", engineFull := ""
    createQuery := "", totalRows := none, totalBytes := none
    loadingDepsDB := [], loadingDepsTable := [] }

/-- A scanned row in the denylisted `system` database. -/
def rowSys : SrcRow :=
  { database := "system", name := "parts", engine := "MergeTree", engineFull := ""
    createQuery := "", totalRows := none, totalBytes := none
    loadingDepsDB := [], loadingDepsTable := [] }

/-- The generation of the aggregation acceptance test: three `MergeTree`
tables in database `d` with rows 10, 20, absent, and one `Distributed`
table with rows absent. -/
def exTables : List (String × CachedTableData) :=
  [("d.t1", sampleData "d" "t1" "MergeTree" (some 10)),
   ("d.t2", sampleData "d" "t2" "MergeTree" (some 20)),
   ("d.t3", sampleData "d" "t3" "MergeTree" none),
   ("d.t4", sampleData "d" "t4" "Distributed" none)]

/-!  Theorems.  -/

/-- C5: a table with engine kind exactly `Distributed`, qualified name
`analytics.proxy` and engine parameter string
`Distributed(...)` quoting the cluster, remote database and remote table as
in the acceptance test yields exactly one edge
`analytics.proxy → target_db.target_table`, whose remote database and
remote table are the 4th and 6th single-quote-delimited tokens of the engine
parameter string. -/
theorem C5_distributed_extraction :
    extractRelationsFromQuery "analytics" "proxy" "Distributed"
        "Distributed(\x27cluster\x27,\x27target_db\x27,\x27target_table\x27,rand())" "" [] []
      = [{ dependsOnTable := "analytics.proxy", table := "target_db.target_table",
           icon := "<i class=\"fa-solid fa-diagram-project\"></i>" }]
    ∧ (splitGo "Distributed(\x27cluster\x27,\x27target_db\x27,\x27target_table\x27,rand())"
        "\x27").getD 3 "" = "target_db"
    ∧ (splitGo "Distributed(\x27cluster\x27,\x27target_db\x27,\x27target_table\x27,rand())"
        "\x27").getD 5 "" = "target_table" := by
  decide

/-- C6: a `MaterializedView` table with creation statement
`CREATE MATERIALIZED VIEW db.mv TO db.dest AS SELECT * FROM db.src` yields
exactly the two edges `db.src → db.mv` and `db.mv → db.dest` (view name and
destination are whitespace-split tokens 3 and 5 of the statement, the source
is the first token after splitting on `"FROM "`). -/
theorem C6_materialized_view_extraction :
    extractRelationsFromQuery "db" "mv" "MaterializedView" ""
        "CREATE MATERIALIZED VIEW db.mv TO db.dest AS SELECT * FROM db.src" [] []
      = [{ dependsOnTable := "db.src", table := "db.mv",
           icon := "<i class=\"fa-solid fa-eye\"></i>" },
         { dependsOnTable := "db.mv", table := "db.dest",
           icon := "<i class=\"fa-solid fa-eye\"></i>" }] := by
  decide

/-- C7: the relationship extractor is total — it returns a plain list (of at
most two relations) for every input and has no error path — and it degrades
gracefully on malformed input: a `Distributed` engine parameter string with
fewer than 6 single-quote-delimited tokens produces no edge, and a
`MaterializedView` creation statement with too few whitespace tokens or no
`"FROM "` segment produces no relations at all. -/
theorem C7_extractor_total_graceful (database table engine engineFull createQuery : String)
    (loadingDepsDB loadingDepsTable : List String) :
    (extractRelationsFromQuery database table engine engineFull createQuery
        loadingDepsDB loadingDepsTable).length ≤ 2
    ∧ (engine = "Distributed" → (splitGo engineFull "\x27").length < 6 →
        edgesOf (extractRelationsFromQuery database table engine engineFull createQuery
          loadingDepsDB loadingDepsTable) = [])
    ∧ (engine = "MaterializedView" →
        ¬((splitGo createQuery " ").length > 5 ∧ (splitGo createQuery "FROM ").length > 1) →
        extractRelationsFromQuery database table engine engineFull createQuery
          loadingDepsDB loadingDepsTable = []) := by
  refine ⟨?_, ?_, ?_⟩
  · unfold extractRelationsFromQuery
    dsimp only
    split_ifs <;> simp
  · intro he hlen
    subst he
    unfold extractRelationsFromQuery edgesOf
    dsimp only
    simp [Nat.not_le.mpr hlen, List.filter]
  · intro he hshape
    subst he
    unfold extractRelationsFromQuery
    dsimp only
    simp [hshape]

/-- C7 witness: the graceful-degradation branches at concrete malformed
inputs. -/
theorem C7_witness :
    edgesOf (extractRelationsFromQuery "d" "t" "Distributed" "noquotes" "" [] []) = []
    ∧ extractRelationsFromQuery "d" "t" "MaterializedView" "" "short" [] [] = [] :=
  ⟨(C7_extractor_total_graceful "d" "t" "Distributed" "noquotes" "" [] []).2.1 rfl (by decide),
   (C7_extractor_total_graceful "d" "t" "MaterializedView" "" "short" [] []).2.2 rfl (by decide)⟩

/-- C10: in the text-protocol row scanners, a nullable unsigned-integer field
scans to absent exactly when the raw text is the sentinel `\N`, the empty
string, or the literal `0`; any other parseable digit string scans to its
parsed value; consequently a stored row count of exactly 0 is
indistinguishable from an absent one. -/
theorem C10_nullable_scan (field : String) (prev : Option Nat)
    (h : field = "\\N" ∨ field = "" ∨ field = "0" ∨ (parseUint64Go field).isSome) :
    (scanNullableUInt64 field prev = none ↔ (field = "\\N" ∨ field = "" ∨ field = "0"))
    ∧ (∀ v, parseUint64Go field = some v → ¬(field = "\\N" ∨ field = "" ∨ field = "0") →
        scanNullableUInt64 field prev = some v)
    ∧ scanNullableUInt64 "0" prev = scanNullableUInt64 "\\N" prev := by
  refine ⟨?_, ?_, by simp [scanNullableUInt64]⟩
  · by_cases hs : field = "\\N" ∨ field = "" ∨ field = "0"
    · simp [scanNullableUInt64, hs]
    · rcases h with h | h | h | h
      · exact absurd (Or.inl h) hs
      · exact absurd (Or.inr (Or.inl h)) hs
      · exact absurd (Or.inr (Or.inr h)) hs
      · rcases Option.isSome_iff_exists.mp h with ⟨v, hv⟩
        simp [scanNullableUInt64, hs, hv]
  · intro v hv hns
    simp [scanNullableUInt64, hns, hv]

/-- C10 witness: the scanner at the concrete fields `"42"`, `"0"` and
`"\N"`. -/
theorem C10_witness :
    scanNullableUInt64 "42" none = some 42
    ∧ scanNullableUInt64 "0" (some 7) = none
    ∧ scanNullableUInt64 "0" (some 7) = scanNullableUInt64 "\\N" (some 7) :=
  ⟨(C10_nullable_scan "42" none (by decide)).2.1 42 (by decide) (by decide),
   (C10_nullable_scan "0" (some 7) (by decide)).1.mpr (by decide),
   (C10_nullable_scan "0" (some 7) (by decide)).2.2⟩

/-- The row-loop body never touches the freshness timestamp. -/
theorem refreshRowStep_lastRefresh (env : RenderEnv) (now : Nat) (st : TableCache)
    (row : SrcRow) : (refreshRowStep env now st row).lastRefresh = st.lastRefresh := by
  unfold refreshRowStep
  dsimp only
  split_ifs <;> rfl

/-- On a successful pass, the row loop stamps `LastRefresh := now`. -/
theorem refreshLoop_success_lastRefresh (env : RenderEnv) (now : Nat) :
    ∀ (items : List (Except String SrcRow)) (iterErr : Option String) (st : TableCache),
      (refreshLoop env now items iterErr st).2 = none →
      (refreshLoop env now items iterErr st).1.lastRefresh = now := by
  intro items
  induction items with
  | nil =>
    intro iterErr st h
    cases iterErr with
    | none => rfl
    | some e => simp [refreshLoop] at h
  | cons head tail ih =>
    intro iterErr st h
    cases head with
    | error e => simp [refreshLoop] at h
    | ok row => exact ih iterErr (refreshRowStep env now st row) h

/-- On a failing pass, the row loop leaves the freshness timestamp of the
state it started from. -/
theorem refreshLoop_failure_lastRefresh (env : RenderEnv) (now : Nat) :
    ∀ (items : List (Except String SrcRow)) (iterErr : Option String) (st : TableCache),
      (refreshLoop env now items iterErr st).2 ≠ none →
      (refreshLoop env now items iterErr st).1.lastRefresh = st.lastRefresh := by
  intro items
  induction items with
  | nil =>
    intro iterErr st h
    cases iterErr with
    | none => exact absurd rfl h
    | some e => rfl
  | cons head tail ih =>
    intro iterErr st h
    cases head with
    | error e => rfl
    | ok row =>
      have := ih iterErr (refreshRowStep env now st row) h
      rw [show refreshLoop env now (Except.ok row :: tail) iterErr st
            = refreshLoop env now tail iterErr (refreshRowStep env now st row) from rfl, this,
        refreshRowStep_lastRefresh]

/-- A scan failure after a prefix of well-scanned rows surfaces exactly the
scan error. -/
theorem refreshLoop_scan_error (env : RenderEnv) (now : Nat) :
    ∀ (goodRows : List SrcRow) (e : String) (rest : List (Except String SrcRow))
      (iterErr : Option String) (st : TableCache),
      (refreshLoop env now (goodRows.map Except.ok ++ Except.error e :: rest) iterErr st).2
        = some ("failed to scan table data: " ++ e) := by
  intro goodRows
  induction goodRows with
  | nil => intro e rest iterErr st; rfl
  | cons row tail ih => intro e rest iterErr st; exact ih e rest iterErr _

/-- An iteration error after all rows scanned surfaces exactly the
iteration error. -/
theorem refreshLoop_iter_error (env : RenderEnv) (now : Nat) :
    ∀ (goodRows : List SrcRow) (e : String) (st : TableCache),
      (refreshLoop env now (goodRows.map Except.ok) (some e) st).2
        = some ("error iterating table rows: " ++ e) := by
  intro goodRows
  induction goodRows with
  | nil => intro e st; rfl
  | cons row tail ih => intro e st; exact ih e _

/-- A fresh, warm cache short-circuits the refresh: no I/O, no error, no
state change. -/
theorem refreshTableCache_fresh (env : RenderEnv) (st : TableCache) (now : Nat)
    (fetch : FetchResult) (h₁ : now - st.lastRefresh < fiveMinutes) (h₂ : st.tables ≠ []) :
    refreshTableCache env st now fetch = { state := st, error := none, queries := 0 } := by
  unfold refreshTableCache
  rw [if_pos ⟨h₁, List.length_pos.mpr h₂⟩]

/-- A refresh issues at most one bulk query. -/
theorem refreshTableCache_queries_le_one (env : RenderEnv) (st : TableCache) (now : Nat)
    (fetch : FetchResult) : (refreshTableCache env st now fetch).queries ≤ 1 := by
  unfold refreshTableCache
  split_ifs
  · exact Nat.zero_le 1
  · cases fetch <;> exact Nat.le_refl 1

/-- A successful refresh that actually rebuilt the generation stamps
`LastRefresh` with the rebuild time. -/
theorem refreshTableCache_stale_success_lastRefresh (env : RenderEnv) (st : TableCache)
    (now : Nat) (fetch : FetchResult)
    (hstale : ¬(now - st.lastRefresh < fiveMinutes ∧ st.tables.length > 0))
    (hok : (refreshTableCache env st now fetch).error = none) :
    (refreshTableCache env st now fetch).state.lastRefresh = now := by
  unfold refreshTableCache at hok ⊢
  rw [if_neg hstale] at hok ⊢
  cases fetch with
  | queryError e => simp at hok
  | rows items iterErr => exact refreshLoop_success_lastRefresh env now items iterErr _ hok

/-- C1 (amended): on a stale cache, a failure to issue the bulk query leaves
the entire cache state unchanged and returns the query error; a failure
while scanning or iterating the returned rows returns that error to the
caller and leaves `LastRefresh` unchanged (so the generation is not marked
fresh), but the table map, relations list and databases map have already
been cleared and partially rebuilt — the pre-failure generation is not
retained. -/
theorem C1_refresh_failure (env : RenderEnv) (st : TableCache) (now : Nat)
    (hstale : ¬(now - st.lastRefresh < fiveMinutes ∧ st.tables.length > 0)) :
    (∀ e, refreshTableCache env st now (.queryError e)
       = { state := st, error := some ("failed to query system.tables: " ++ e), queries := 1 })
    ∧ (∀ (goodRows : List SrcRow) (e : String) (rest : List (Except String SrcRow))
         (iterErr : Option String),
        (refreshTableCache env st now
            (.rows (goodRows.map Except.ok ++ Except.error e :: rest) iterErr)).error
          = some ("failed to scan table data: " ++ e)
        ∧ (refreshTableCache env st now
            (.rows (goodRows.map Except.ok ++ Except.error e :: rest) iterErr)).state.lastRefresh
          = st.lastRefresh)
    ∧ (∀ (goodRows : List SrcRow) (e : String),
        (refreshTableCache env st now (.rows (goodRows.map Except.ok) (some e))).error
          = some ("error iterating table rows: " ++ e)
        ∧ (refreshTableCache env st now (.rows (goodRows.map Except.ok) (some e))).state.lastRefresh
          = st.lastRefresh) := by
  refine ⟨?_, ?_, ?_⟩
  · intro e
    unfold refreshTableCache
    rw [if_neg hstale]
  · intro goodRows e rest iterErr
    have herr := refreshLoop_scan_error env now goodRows e rest iterErr
      { st with tables := [], relations := [], databasesMap := [] }
    have hlr := refreshLoop_failure_lastRefresh env now
      (goodRows.map Except.ok ++ Except.error e :: rest) iterErr
      { st with tables := [], relations := [], databasesMap := [] }
      (by rw [herr]; exact Option.some_ne_none _)
    constructor
    · unfold refreshTableCache
      rw [if_neg hstale]
      exact herr
    · unfold refreshTableCache
      rw [if_neg hstale]
      exact hlr
  · intro goodRows e
    have herr := refreshLoop_iter_error env now goodRows e
      { st with tables := [], relations := [], databasesMap := [] }
    have hlr := refreshLoop_failure_lastRefresh env now (goodRows.map Except.ok) (some e)
      { st with tables := [], relations := [], databasesMap := [] }
      (by rw [herr]; exact Option.some_ne_none _)
    constructor
    · unfold refreshTableCache
      rw [if_neg hstale]
      exact herr
    · unfold refreshTableCache
      rw [if_neg hstale]
      exact hlr

/-- C1 witness: the amended behaviour at a concrete warm-but-stale cache. -/
theorem C1_witness :
    refreshTableCache specEnv stWarm fiveMinutes (.queryError "net")
      = { state := stWarm, error := some ("failed to query system.tables: net"), queries := 1 }
    ∧ (refreshTableCache specEnv stWarm fiveMinutes
        (.rows [Except.error "boom"] none)).state.lastRefresh = stWarm.lastRefresh := by
  constructor
  · exact ((C1_refresh_failure specEnv stWarm fiveMinutes (by decide)).1 "net").trans (by decide)
  · exact ((C1_refresh_failure specEnv stWarm fiveMinutes (by decide)).2.1 [] "boom" [] none).2

/-- C1 counterexample: the claim as stated is false — on a warm (one-table)
but stale cache, a scan failure during the refresh returns an error, yet the
cache afterwards no longer holds the pre-failure generation: the table map,
relations list and databases map have been cleared. -/
theorem C1_counterexample :
    (refreshTableCache specEnv stWarm fiveMinutes (.rows [Except.error "boom"] none)).error
      = some "failed to scan table data: boom"
    ∧ stWarm.tables ≠ []
    ∧ (refreshTableCache specEnv stWarm fiveMinutes
        (.rows [Except.error "boom"] none)).state.tables = []
    ∧ (refreshTableCache specEnv stWarm fiveMinutes
        (.rows [Except.error "boom"] none)).state.relations = []
    ∧ stWarm.relations ≠ [] := by
  decide

/-- C3: a refresh inside the freshness window of a non-empty generation
returns nil without issuing any query, and two refresh calls within the
5-minute window of each other — the first of which succeeds and leaves a
non-empty table map — issue at most one bulk query in total. -/
theorem C3_ttl_respected (env : RenderEnv) :
    (∀ (st : TableCache) (now : Nat) (fetch : FetchResult),
       now - st.lastRefresh < fiveMinutes → st.tables ≠ [] →
       refreshTableCache env st now fetch = { state := st, error := none, queries := 0 })
    ∧ (∀ (st : TableCache) (now₁ now₂ : Nat) (f₁ f₂ : FetchResult),
       (refreshTableCache env st now₁ f₁).error = none →
       (refreshTableCache env st now₁ f₁).state.tables ≠ [] →
       now₂ - now₁ < fiveMinutes →
       (refreshTableCache env st now₁ f₁).queries
         + (refreshTableCache env (refreshTableCache env st now₁ f₁).state now₂ f₂).queries
         ≤ 1) := by
  constructor
  · intro st now fetch h₁ h₂
    exact refreshTableCache_fresh env st now fetch h₁ h₂
  · intro st now₁ now₂ f₁ f₂ hok hne hwin
    by_cases hfresh : now₁ - st.lastRefresh < fiveMinutes ∧ st.tables.length > 0
    · have h₁ : refreshTableCache env st now₁ f₁
          = { state := st, error := none, queries := 0 } :=
        refreshTableCache_fresh env st now₁ f₁ hfresh.1 (by
          intro hn
          rw [hn] at hfresh
          exact absurd hfresh.2 (by simp))
      rw [h₁]
      have := refreshTableCache_queries_le_one env st now₂ f₂
      simpa using this
    · have hq : (refreshTableCache env st now₁ f₁).queries = 1 := by
        unfold refreshTableCache
        rw [if_neg hfresh]
        cases f₁ <;> rfl
      have hlr : (refreshTableCache env st now₁ f₁).state.lastRefresh = now₁ :=
        refreshTableCache_stale_success_lastRefresh env st now₁ f₁ hfresh hok
      have h₂ : refreshTableCache env (refreshTableCache env st now₁ f₁).state now₂ f₂
          = { state := (refreshTableCache env st now₁ f₁).state, error := none, queries := 0 } :=
        refreshTableCache_fresh env _ now₂ f₂ (by rw [hlr]; exact hwin) hne
      rw [hq, h₂]
      simp

/-- C3 witness: a fresh warm cache refreshed with no query, and a
stale-then-fresh pair of calls issuing one query in total. -/
theorem C3_witness :
    refreshTableCache specEnv stWarm 100 (.queryError "net")
      = { state := stWarm, error := none, queries := 0 }
    ∧ (refreshTableCache specEnv {} 50 (.rows [Except.ok row1] none)).queries
        + (refreshTableCache specEnv
            (refreshTableCache specEnv {} 50 (.rows [Except.ok row1] none)).state
            60 (.queryError "x")).queries ≤ 1 :=
  ⟨(C3_ttl_respected specEnv).1 stWarm 100 (.queryError "net") (by decide) (by decide),
   (C3_ttl_respected specEnv).2 {} 50 60 (.rows [Except.ok row1] none) (.queryError "x")
     (by decide) (by decide) (by decide)⟩

/-- Rooted at any node of the 3-cycle, the forward traversal exhausts every
finite recursion depth: each call matches an edge and recurses
unconditionally (the visited set only suppresses re-emission), so no fuel
suffices. -/
theorem threeCycle_next_none (env : RenderEnv) (tables : List (String × CachedTableData)) :
    ∀ (fuel : Nat) (table : String),
      (table = "db.a" ∨ table = "db.b" ∨ table = "db.c") →
      ∀ (seen : List String),
        getRelationsNextF env tables threeCycle fuel table seen = none := by
  intro fuel
  induction fuel with
  | zero => intro table _ seen; rfl
  | succ f ih =>
    have ha := fun s => ih "db.a" (Or.inl rfl) s
    have hb := fun s => ih "db.b" (Or.inr (Or.inl rfl)) s
    have hc := fun s => ih "db.c" (Or.inr (Or.inr rfl)) s
    simp only [threeCycle] at ha hb hc
    intro table ht seen
    rcases ht with h | h | h <;> subst h <;>
      simp [getRelationsNextF, relationsLoopNext, threeCycle, ha, hb, hc]

/-- C2 (code bug): on the 3-node cycle A→B→C→A the single-table traversal
does not terminate — the forward walk rooted at the cycle returns no result
at any recursion depth, and `GenerateMermaidSchema` on a warm cache whose
relations list is the cycle likewise produces no result at any depth,
instead of terminating and emitting the 3 edges once each. -/
theorem C2_cycle_traversal_diverges :
    (∀ (env : RenderEnv) (tables : List (String × CachedTableData)) (fuel : Nat)
       (seen : List String),
       getRelationsNextF env tables threeCycle fuel "db.a" seen = none)
    ∧ (∀ (env : RenderEnv) (fuel : Nat) (fetch : FetchResult),
       GenerateMermaidSchemaF env fuel stCycle 150 fetch "db" "a" = none) := by
  constructor
  · intro env tables fuel seen
    exact threeCycle_next_none env tables fuel "db.a" (Or.inl rfl) seen
  · intro env fuel fetch
    have hr : refreshTableCache env stCycle 150 fetch
        = { state := stCycle, error := none, queries := 0 } :=
      refreshTableCache_fresh env stCycle 150 fetch (by decide) (by decide)
    have hn := threeCycle_next_none env stCycle.tables fuel ("db" ++ "." ++ "a")
      (Or.inl (by decide)) []
    unfold GenerateMermaidSchemaF
    rw [hr]
    dsimp only
    rw [show stCycle.relations = threeCycle from rfl, hn]

/-- C4 (amended): after a successful refresh, `GenerateDatabaseMermaidSchema`
returns a not-found error for an absent database, and the cache lookup
`getTableFromCache` (used by the table-details operation) returns a
not-found error for an absent (database, table) pair; `GenerateMermaidSchema`
itself, however, never returns an error after a successful refresh — for an
absent pair it succeeds, rendering a diagram that contains just the root
node. -/
theorem C4_notfound (env : RenderEnv) :
    (∀ (st : TableCache) (now : Nat) (fetch : FetchResult) (dbName : String),
       (refreshTableCache env st now fetch).error = none →
       lookupA dbName (refreshTableCache env st now fetch).state.databasesMap = none →
       (GenerateDatabaseMermaidSchemaCheck env st now fetch dbName).2
         = .error ("database \x27" ++ dbName ++ "\x27 not found"))
    ∧ (∀ (st : TableCache) (now : Nat) (fetch : FetchResult) (database table : String),
       (refreshTableCache env st now fetch).error = none →
       lookupA (database ++ "." ++ table) (refreshTableCache env st now fetch).state.tables
         = none →
       (getTableFromCache env st now fetch database table).2
         = .error ("table " ++ database ++ "." ++ table ++ " not found"))
    ∧ (∀ (fuel : Nat) (st : TableCache) (now : Nat) (fetch : FetchResult)
         (dbName tableName : String) (res : TableCache × Except String String),
       (refreshTableCache env st now fetch).error = none →
       GenerateMermaidSchemaF env fuel st now fetch dbName tableName = some res →
       exceptIsOk res.2 = true) := by
  refine ⟨?_, ?_, ?_⟩
  · intro st now fetch dbName hok hlk
    unfold GenerateDatabaseMermaidSchemaCheck
    dsimp only
    rw [hok, hlk]
  · intro st now fetch database table hok hlk
    unfold getTableFromCache
    dsimp only
    rw [hok, hlk]
  · intro fuel st now fetch dbName tableName res hok h
    unfold GenerateMermaidSchemaF at h
    dsimp only at h
    rw [hok] at h
    dsimp only at h
    rcases hn : getRelationsNextF env (refreshTableCache env st now fetch).state.tables
        (refreshTableCache env st now fetch).state.relations fuel
        (dbName ++ "." ++ tableName) [] with _ | ⟨s₁, o₁⟩
    · rw [hn] at h
      exact absurd h (by simp)
    · rw [hn] at h
      dsimp only at h
      rcases hb : getRelationsBackF env (refreshTableCache env st now fetch).state.tables
          (refreshTableCache env st now fetch).state.relations fuel
          (dbName ++ "." ++ tableName) s₁ with _ | ⟨s₂, o₂⟩
      · rw [hb] at h
        exact absurd h (by simp)
      · rw [hb] at h
        dsimp only at h
        rw [← Option.some_inj.mp h]
        rfl

/-- C4 counterexample: the claim as stated is false for the single-table
schema operation — `GenerateMermaidSchema` for the absent pair
(`nope`, `missing`) on a warm fresh cache succeeds (no NotFound error). -/
theorem C4_counterexample :
    lookupA "nope.missing" stWarm.tables = none
    ∧ (GenerateMermaidSchemaF specEnv 1 stWarm 100 (.queryError "x") "nope" "missing").map
        (fun p => exceptIsOk p.2) = some true := by
  decide

/-- C4 witness: the amended behaviour at concrete absent names. -/
theorem C4_witness :
    (GenerateDatabaseMermaidSchemaCheck specEnv stWarm 100 (.queryError "x") "nope").2
      = .error "database \x27nope\x27 not found"
    ∧ (getTableFromCache specEnv stWarm 100 (.queryError "x") "nope" "missing").2
      = .error "table nope.missing not found"
    ∧ exceptIsOk (stWarm,
        (Except.ok ("flowchart TB\n    0[\"nope.missing\"]\n\n    style 0 fill:#FF6D00,stroke:#AA00FF,color:#FFFFFF\n\n")
          : Except String String)).2 = true := by
  refine ⟨?_, ?_, ?_⟩
  · exact ((C4_notfound specEnv).1 stWarm 100 (.queryError "x") "nope"
      (by decide) (by decide)).trans (by decide)
  · exact ((C4_notfound specEnv).2.1 stWarm 100 (.queryError "x") "nope" "missing"
      (by decide) (by decide)).trans (by decide)
  · exact (C4_notfound specEnv).2.2 1 stWarm 100 (.queryError "x") "nope" "missing"
      _ (by decide) (by decide)

/-- Membership after an overwriting insert: the element is the new binding
or was already present. -/
theorem insertA_mem {α : Type} (k : String) (v : α) :
    ∀ (m : List (String × α)) (q : String × α), q ∈ insertA k v m → q = (k, v) ∨ q ∈ m := by
  intro m
  induction m with
  | nil =>
    intro q hq
    simp [insertA] at hq
    exact Or.inl hq
  | cons p rest ih =>
    intro q hq
    obtain ⟨k₁, v₁⟩ := p
    by_cases hk : k₁ = k
    · simp [insertA, hk] at hq
      rcases hq with hq | hq
      · exact Or.inl (by simp [hq])
      · exact Or.inr (List.mem_cons_of_mem _ hq)
    · simp [insertA, hk] at hq
      rcases hq with hq | hq
      · exact Or.inr (by simp [hq])
      · rcases ih q hq with h | h
        · exact Or.inl h
        · exact Or.inr (List.mem_cons_of_mem _ h)

/-- Membership after a nested database-index insert: the element keys the
inserted database or was already present. -/
theorem dbMapInsert_mem (db nm label : String) (m : List (String × List (String × String)))
    (p : String × List (String × String)) (hp : p ∈ dbMapInsert db nm label m) :
    p.1 = db ∨ p ∈ m := by
  unfold dbMapInsert at hp
  cases h : lookupA db m with
  | none =>
    rw [h] at hp
    rcases List.mem_append.mp hp with h₁ | h₁
    · exact Or.inr h₁
    · simp at h₁
      exact Or.inl (by rw [h₁])
  | some inner =>
    rw [h] at hp
    rcases insertA_mem db _ m p hp with h₁ | h₁
    · exact Or.inl (by rw [h₁])
    · exact Or.inr h₁

/-- The row loop only ever adds database-index keys that pass the
denylist. -/
theorem refreshLoop_dbmap_allowed (env : RenderEnv) (now : Nat) :
    ∀ (items : List (Except String SrcRow)) (iterErr : Option String) (st : TableCache),
      (∀ p ∈ st.databasesMap, allowedDatabase p.1 = true) →
      ∀ p ∈ (refreshLoop env now items iterErr st).1.databasesMap, allowedDatabase p.1 = true := by
  intro items
  induction items with
  | nil =>
    intro iterErr st hst p hp
    cases iterErr with
    | none => exact hst p hp
    | some e => exact hst p hp
  | cons head tail ih =>
    intro iterErr st hst p hp
    cases head with
    | error e => exact hst p hp
    | ok row =>
      refine ih iterErr (refreshRowStep env now st row) ?_ p hp
      intro q hq
      by_cases hall : allowedDatabase row.database
      · unfold refreshRowStep at hq
        rw [if_neg (by simp [hall])] at hq
        dsimp only at hq
        rcases dbMapInsert_mem row.database row.name _ st.databasesMap q hq with h | h
        · rw [h]; exact hall
        · exact hst q h
      · unfold refreshRowStep at hq
        rw [if_pos (by simp [hall])] at hq
        exact hst q hq

/-- The row loop only ever adds table snapshots whose database passes the
denylist. -/
theorem refreshLoop_tables_allowed (env : RenderEnv) (now : Nat) :
    ∀ (items : List (Except String SrcRow)) (iterErr : Option String) (st : TableCache),
      (∀ q ∈ st.tables, allowedDatabase q.2.database = true) →
      ∀ q ∈ (refreshLoop env now items iterErr st).1.tables, allowedDatabase q.2.database = true := by
  intro items
  induction items with
  | nil =>
    intro iterErr st hst q hq
    cases iterErr with
    | none => exact hst q hq
    | some e => exact hst q hq
  | cons head tail ih =>
    intro iterErr st hst q hq
    cases head with
    | error e => exact hst q hq
    | ok row =>
      refine ih iterErr (refreshRowStep env now st row) ?_ q hq
      intro q₁ hq₁
      by_cases hall : allowedDatabase row.database
      · unfold refreshRowStep at hq₁
        rw [if_neg (by simp [hall])] at hq₁
        dsimp only at hq₁
        rcases insertA_mem _ _ st.tables q₁ hq₁ with h | h
        · rw [h]; exact hall
        · exact hst q₁ h
      · unfold refreshRowStep at hq₁
        rw [if_pos (by simp [hall])] at hq₁
        exact hst q₁ hq₁

/-- On a successful pass, the relations accumulated by the row loop are
exactly those extracted from the allowed rows, appended to what was already
there. -/
theorem refreshLoop_relations (env : RenderEnv) (now : Nat) :
    ∀ (items : List (Except String SrcRow)) (iterErr : Option String) (st : TableCache),
      (refreshLoop env now items iterErr st).2 = none →
      (refreshLoop env now items iterErr st).1.relations
        = st.relations ++ (allowedScannedRows items).flatMap rowRelations := by
  intro items
  induction items with
  | nil =>
    intro iterErr st h
    cases iterErr with
    | none => simp [allowedScannedRows, refreshLoop]
    | some e => simp [refreshLoop] at h
  | cons head tail ih =>
    intro iterErr st h
    cases head with
    | error e => simp [refreshLoop] at h
    | ok row =>
      have hstep : refreshLoop env now (Except.ok row :: tail) iterErr st
          = refreshLoop env now tail iterErr (refreshRowStep env now st row) := rfl
      rw [hstep] at h ⊢
      rw [ih iterErr (refreshRowStep env now st row) h]
      by_cases hall : allowedDatabase row.database
      · have hrel : (refreshRowStep env now st row).relations
            = st.relations ++ rowRelations row := by
          unfold refreshRowStep
          rw [if_neg (by simp [hall])]
          rfl
        rw [hrel]
        simp [allowedScannedRows, hall, rowRelations, List.append_assoc]
      · have hrel : (refreshRowStep env now st row).relations = st.relations := by
          unfold refreshRowStep
          rw [if_pos (by simp [hall])]
        rw [hrel]
        simp [allowedScannedRows, hall]

/-- C8: the fixed denylist excludes exactly the names the spec lists (only
`information_schema` case-insensitively), and a successfully rebuilt
generation contains nothing derived from a denylisted row: every database
index key and every table snapshot passes the denylist, and the relations
list is exactly the extraction over the allowed rows. -/
theorem C8_denylist_filtering (env : RenderEnv) (st : TableCache) (now : Nat)
    (items : List (Except String SrcRow))
    (hok : (refreshTableCache env st now (.rows items none)).error = none)
    (hstale : ¬(now - st.lastRefresh < fiveMinutes ∧ st.tables.length > 0)) :
    (∀ d, allowedDatabase d = false ↔
      (d = "" ∨ d = "system" ∨ toLowerGo d = "information_schema"
        ∨ d = "performance_schema" ∨ d = "mysql"))
    ∧ (∀ p ∈ (refreshTableCache env st now (.rows items none)).state.databasesMap,
        allowedDatabase p.1 = true)
    ∧ (∀ q ∈ (refreshTableCache env st now (.rows items none)).state.tables,
        allowedDatabase q.2.database = true)
    ∧ (refreshTableCache env st now (.rows items none)).state.relations
        = (allowedScannedRows items).flatMap rowRelations := by
  have hred : refreshTableCache env st now (.rows items none)
      = { state := (refreshLoop env now items none
            { st with tables := [], relations := [], databasesMap := [] }).1,
          error := (refreshLoop env now items none
            { st with tables := [], relations := [], databasesMap := [] }).2,
          queries := 1 } := by
    unfold refreshTableCache
    rw [if_neg hstale]
  rw [hred] at hok ⊢
  refine ⟨?_, ?_, ?_, ?_⟩
  · intro d
    unfold allowedDatabase
    split_ifs <;> simp_all
  · exact refreshLoop_dbmap_allowed env now items none _ (by intro p hp; simp at hp)
  · exact refreshLoop_tables_allowed env now items none _ (by intro q hq; simp at hq)
  · have := refreshLoop_relations env now items none
      { st with tables := [], relations := [], databasesMap := [] } hok
    simpa using this

/-- C8 witness: a refresh over one denylisted row and one allowed row keeps
only the relations of the allowed row. -/
theorem C8_witness :
    (refreshTableCache specEnv {} 50 (.rows [Except.ok rowSys, Except.ok row1] none)).state.relations
      = (allowedScannedRows [Except.ok rowSys, Except.ok row1]).flatMap rowRelations :=
  (C8_denylist_filtering specEnv {} 50 [Except.ok rowSys, Except.ok row1]
    (by decide) (by decide)).2.2.2

/-- Looking up the key just inserted returns the inserted value. -/
theorem lookupA_insertA_self {α : Type} (k : String) (v : α) :
    ∀ (m : List (String × α)), lookupA k (insertA k v m) = some v := by
  intro m
  induction m with
  | nil => simp [insertA, lookupA]
  | cons p rest ih =>
    obtain ⟨k₁, v₁⟩ := p
    by_cases hk : k₁ = k
    · simp [insertA, hk, lookupA]
    · simp [insertA, hk, lookupA, ih]

/-- Inserting under a different key does not change a lookup. -/
theorem lookupA_insertA_ne {α : Type} (k k₁ : String) (v : α) (h : k₁ ≠ k) :
    ∀ (m : List (String × α)), lookupA k (insertA k₁ v m) = lookupA k m := by
  intro m
  induction m with
  | nil => simp [insertA, lookupA, h]
  | cons p rest ih =>
    obtain ⟨k₂, v₂⟩ := p
    by_cases hk : k₂ = k₁
    · subst hk
      simp [insertA, lookupA, h]
    · simp [insertA, hk, lookupA, ih]

/-- The aggregation step on a non-matching table is the identity. -/
theorem statsStep_nomatch (dbName : String) (s : DatabaseStats) (t : CachedTableData)
    (h : ¬(t.database = dbName)) : statsStep dbName s t = s := by
  unfold statsStep
  rw [if_pos h]

/-- Field values of the aggregation step on a matching table. -/
theorem statsStep_match (dbName : String) (s : DatabaseStats) (t : CachedTableData)
    (h : t.database = dbName) :
    (statsStep dbName s t).database = s.database
    ∧ (statsStep dbName s t).totalTables = s.totalTables + 1
    ∧ (statsStep dbName s t).totalRows = addU64 s.totalRows (t.totalRows.getD 0)
    ∧ (statsStep dbName s t).totalBytes = addU64 s.totalBytes (t.totalBytes.getD 0)
    ∧ (statsStep dbName s t).engineCounts
        = insertA t.engine
            { count := ((lookupA t.engine s.engineCounts).getD {}).count + 1
              totalRows := addU64 ((lookupA t.engine s.engineCounts).getD {}).totalRows
                (t.totalRows.getD 0)
              totalBytes := addU64 ((lookupA t.engine s.engineCounts).getD {}).totalBytes
                (t.totalBytes.getD 0) }
            s.engineCounts := by
  refine ⟨?_, ?_, ?_, ?_, ?_⟩ <;>
    (unfold statsStep; rw [if_neg (by simp [h])])

/-- The modulus of `uint64` arithmetic is positive. -/
theorem U64_pos : 0 < U64 := by
  unfold U64
  positivity

/-- The aggregation fold never changes the database name. -/
theorem statsFold_database (dbName : String) :
    ∀ (l : List CachedTableData) (s : DatabaseStats),
      (l.foldl (statsStep dbName) s).database = s.database := by
  intro l
  induction l with
  | nil => intro s; rfl
  | cons t rest ih =>
    intro s
    rw [List.foldl_cons, ih]
    by_cases h : t.database = dbName
    · exact (statsStep_match dbName s t h).1
    · rw [statsStep_nomatch dbName s t h]

/-- The aggregation fold counts exactly the tables of the database. -/
theorem statsFold_totalTables (dbName : String) :
    ∀ (l : List CachedTableData) (s : DatabaseStats),
      (l.foldl (statsStep dbName) s).totalTables
        = s.totalTables + (l.filter (fun t => t.database = dbName)).length := by
  intro l
  induction l with
  | nil => intro s; simp
  | cons t rest ih =>
    intro s
    rw [List.foldl_cons, ih]
    by_cases h : t.database = dbName
    · rw [(statsStep_match dbName s t h).2.1]
      simp [List.filter_cons, h]
      omega
    · rw [statsStep_nomatch dbName s t h]
      simp [List.filter_cons, h]

/-- The aggregation fold sums the present row counts of the tables of the
database, with `uint64` wrap-around. -/
theorem statsFold_totalRows (dbName : String) :
    ∀ (l : List CachedTableData) (s : DatabaseStats), s.totalRows < U64 →
      (l.foldl (statsStep dbName) s).totalRows
        = (s.totalRows + ((l.filter (fun t => t.database = dbName)).map
            (fun t => t.totalRows.getD 0)).sum) % U64 := by
  intro l
  induction l with
  | nil =>
    intro s hs
    simp [Nat.mod_eq_of_lt hs]
  | cons t rest ih =>
    intro s hs
    rw [List.foldl_cons]
    by_cases h : t.database = dbName
    · have hstep := (statsStep_match dbName s t h).2.2.1
      have hlt : (statsStep dbName s t).totalRows < U64 := by
        rw [hstep]; exact Nat.mod_lt _ U64_pos
      rw [ih (statsStep dbName s t) hlt, hstep]
      unfold addU64
      rw [Nat.mod_add_mod]
      simp [List.filter_cons, h]
      ring_nf
    · rw [statsStep_nomatch dbName s t h, ih s hs]
      simp [List.filter_cons, h]

/-- Same for byte sizes. -/
theorem statsFold_totalBytes (dbName : String) :
    ∀ (l : List CachedTableData) (s : DatabaseStats), s.totalBytes < U64 →
      (l.foldl (statsStep dbName) s).totalBytes
        = (s.totalBytes + ((l.filter (fun t => t.database = dbName)).map
            (fun t => t.totalBytes.getD 0)).sum) % U64 := by
  intro l
  induction l with
  | nil =>
    intro s hs
    simp [Nat.mod_eq_of_lt hs]
  | cons t rest ih =>
    intro s hs
    rw [List.foldl_cons]
    by_cases h : t.database = dbName
    · have hstep := (statsStep_match dbName s t h).2.2.2.1
      have hlt : (statsStep dbName s t).totalBytes < U64 := by
        rw [hstep]; exact Nat.mod_lt _ U64_pos
      rw [ih (statsStep dbName s t) hlt, hstep]
      unfold addU64
      rw [Nat.mod_add_mod]
      simp [List.filter_cons, h]
      ring_nf
    · rw [statsStep_nomatch dbName s t h, ih s hs]
      simp [List.filter_cons, h]

/-- The per-engine breakdown counts every matching table, rows present or
not. -/
theorem statsFold_engineCount (dbName e : String) :
    ∀ (l : List CachedTableData) (s : DatabaseStats),
      ((lookupA e (l.foldl (statsStep dbName) s).engineCounts).getD {}).count
        = ((lookupA e s.engineCounts).getD {}).count
          + (l.filter (fun t => t.database = dbName ∧ t.engine = e)).length := by
  intro l
  induction l with
  | nil => intro s; simp
  | cons t rest ih =>
    intro s
    rw [List.foldl_cons, ih]
    by_cases h : t.database = dbName
    · rw [(statsStep_match dbName s t h).2.2.2.2]
      by_cases he : t.engine = e
      · subst he
        rw [lookupA_insertA_self]
        simp [List.filter_cons, h]
        omega
      · rw [lookupA_insertA_ne e t.engine _ he]
        simp [List.filter_cons, h, he]
    · rw [statsStep_nomatch dbName s t h]
      simp [List.filter_cons, h]

/-- The per-engine breakdown sums the present row counts of the matching
tables, with `uint64` wrap-around. -/
theorem statsFold_engineRows (dbName e : String) :
    ∀ (l : List CachedTableData) (s : DatabaseStats),
      ((lookupA e s.engineCounts).getD {}).totalRows < U64 →
      ((lookupA e (l.foldl (statsStep dbName) s).engineCounts).getD {}).totalRows
        = (((lookupA e s.engineCounts).getD {}).totalRows
            + ((l.filter (fun t => t.database = dbName ∧ t.engine = e)).map
                (fun t => t.totalRows.getD 0)).sum) % U64 := by
  intro l
  induction l with
  | nil =>
    intro s hs
    simp [Nat.mod_eq_of_lt hs]
  | cons t rest ih =>
    intro s hs
    rw [List.foldl_cons]
    by_cases h : t.database = dbName
    · by_cases he : t.engine = e
      · subst he
        have hlk : (lookupA t.engine (statsStep dbName s t).engineCounts).getD {}
            = { count := ((lookupA t.engine s.engineCounts).getD {}).count + 1
                totalRows := addU64 ((lookupA t.engine s.engineCounts).getD {}).totalRows
                  (t.totalRows.getD 0)
                totalBytes := addU64 ((lookupA t.engine s.engineCounts).getD {}).totalBytes
                  (t.totalBytes.getD 0) } := by
          rw [(statsStep_match dbName s t h).2.2.2.2, lookupA_insertA_self]
          rfl
        have hlt : ((lookupA t.engine (statsStep dbName s t).engineCounts).getD {}).totalRows
            < U64 := by
          rw [hlk]; exact Nat.mod_lt _ U64_pos
        rw [ih (statsStep dbName s t) hlt, hlk]
        dsimp only
        unfold addU64
        rw [Nat.mod_add_mod]
        simp [List.filter_cons, h]
        ring_nf
      · have hlk : lookupA e (statsStep dbName s t).engineCounts = lookupA e s.engineCounts := by
          rw [(statsStep_match dbName s t h).2.2.2.2, lookupA_insertA_ne e t.engine _ he]
        rw [ih (statsStep dbName s t) (by rw [hlk]; exact hs), hlk]
        simp [List.filter_cons, h, he]
    · rw [statsStep_nomatch dbName s t h] at *
      rw [ih s hs]
      simp [List.filter_cons, h]

/-- A fold over tables of other databases is the identity. -/
theorem statsFold_nomatch (dbName : String) :
    ∀ (l : List CachedTableData) (s : DatabaseStats),
      (∀ t ∈ l, ¬(t.database = dbName)) → l.foldl (statsStep dbName) s = s := by
  intro l
  induction l with
  | nil => intro s _; rfl
  | cons t rest ih =>
    intro s hall
    rw [List.foldl_cons, statsStep_nomatch dbName s t (hall t (List.mem_cons_self t rest))]
    exact ih s (fun u hu => hall u (List.mem_cons_of_mem t hu))

/-- C9: `GetDatabaseStats` is a linear aggregation over the tables of the
generation: `totalTables` counts every table of the database, `totalRows` and
`totalBytes` sum the present optional values (absent counts as zero, sums in
`uint64` arithmetic), the per-engine breakdown counts every table of the
database even when its rows are absent, and an unknown database yields the
zero aggregate rather than an error. -/
theorem C9_database_stats (tables : List (String × CachedTableData)) (dbName : String) :
    (GetDatabaseStats tables dbName).database = dbName
    ∧ (GetDatabaseStats tables dbName).totalTables
        = ((tables.map Prod.snd).filter (fun t => t.database = dbName)).length
    ∧ (GetDatabaseStats tables dbName).totalRows
        = (((tables.map Prod.snd).filter (fun t => t.database = dbName)).map
            (fun t => t.totalRows.getD 0)).sum % U64
    ∧ (GetDatabaseStats tables dbName).totalBytes
        = (((tables.map Prod.snd).filter (fun t => t.database = dbName)).map
            (fun t => t.totalBytes.getD 0)).sum % U64
    ∧ (∀ e, ((lookupA e (GetDatabaseStats tables dbName).engineCounts).getD {}).count
        = ((tables.map Prod.snd).filter
            (fun t => t.database = dbName ∧ t.engine = e)).length)
    ∧ (∀ e, ((lookupA e (GetDatabaseStats tables dbName).engineCounts).getD {}).totalRows
        = (((tables.map Prod.snd).filter (fun t => t.database = dbName ∧ t.engine = e)).map
            (fun t => t.totalRows.getD 0)).sum % U64)
    ∧ ((∀ t ∈ tables.map Prod.snd, ¬(t.database = dbName)) →
        GetDatabaseStats tables dbName = { database := dbName }) := by
  have hmap : GetDatabaseStats tables dbName
      = (tables.map Prod.snd).foldl (statsStep dbName) { database := dbName } := by
    unfold GetDatabaseStats
    rw [List.foldl_map]
  rw [hmap]
  refine ⟨?_, ?_, ?_, ?_, ?_, ?_, ?_⟩
  · exact statsFold_database dbName _ _
  · have := statsFold_totalTables dbName (tables.map Prod.snd) { database := dbName }
    simpa using this
  · have := statsFold_totalRows dbName (tables.map Prod.snd) { database := dbName } U64_pos
    simpa using this
  · have := statsFold_totalBytes dbName (tables.map Prod.snd) { database := dbName } U64_pos
    simpa using this
  · intro e
    have := statsFold_engineCount dbName e (tables.map Prod.snd) { database := dbName }
    simpa [lookupA] using this
  · intro e
    have := statsFold_engineRows dbName e (tables.map Prod.snd) { database := dbName }
      (by simpa [lookupA] using U64_pos)
    simpa [lookupA] using this
  · intro hall
    exact statsFold_nomatch dbName _ _ hall

/-- C9 witness: the aggregation acceptance test — 3 `MergeTree` tables with
rows 10, 20, absent and 1 `Distributed` table with rows absent in database
`d` — and an unknown database. -/
theorem C9_witness :
    (GetDatabaseStats exTables "d").totalTables = 4
    ∧ (GetDatabaseStats exTables "d").totalRows = 30
    ∧ ((lookupA "MergeTree" (GetDatabaseStats exTables "d").engineCounts).getD {}).count = 3
    ∧ ((lookupA "MergeTree" (GetDatabaseStats exTables "d").engineCounts).getD {}).totalRows = 30
    ∧ ((lookupA "Distributed" (GetDatabaseStats exTables "d").engineCounts).getD {}).count = 1
    ∧ ((lookupA "Distributed" (GetDatabaseStats exTables "d").engineCounts).getD {}).totalRows = 0
    ∧ GetDatabaseStats exTables "zzz" = { database := "zzz" } :=
  ⟨(C9_database_stats exTables "d").2.1.trans (by decide),
   (C9_database_stats exTables "d").2.2.1.trans (by decide),
   ((C9_database_stats exTables "d").2.2.2.2.1 "MergeTree").trans (by decide),
   ((C9_database_stats exTables "d").2.2.2.2.2.1 "MergeTree").trans (by decide),
   ((C9_database_stats exTables "d").2.2.2.2.1 "Distributed").trans (by decide),
   ((C9_database_stats exTables "d").2.2.2.2.2.1 "Distributed").trans (by decide),
   (C9_database_stats exTables "zzz").2.2.2.2.2.2 (by decide)⟩

end SchemaFlow
